import Mathlib

/-!
Verification of the vcluster lifecycle resource (`vcluster/resource_vcluster.go`).

The Go handlers are shallowly embedded as pure Lean functions:

* `ResourceData` models the host's resource record (`*schema.ResourceData`):
  the tracked identifier `id` (`d.Id()` / `d.SetId`), the required `name`
  field, and the optional schema fields.  A Go `d.Get(k)` that may yield
  `nil` is modelled as an `Option` field; the `Required` field `name` and
  the `Computed` fields `status`/`created` are plain strings.
* The external process is modelled by passing its result (`CmdResult`) into
  the handler; JSON decoding of the `list` output is modelled by passing a
  decoder function whose failure branch is an `Except.error`.
* Each handler returns the list of argument vectors it executed, the
  diagnostics it produced (`[]` = success), and the updated record.
-/

/-- Severity of a diagnostic, modelling `diag.Severity`. -/
inductive Severity where
  | error
  | warning
deriving DecidableEq, Repr

/-- One diagnostic, modelling `diag.Diagnostic` (summary + detail). -/
structure Diagnostic where
  severity : Severity
  summary : String
  detail : String
deriving DecidableEq, Repr

/-- Modelling `diag.FromErr`: a single error diagnostic whose summary is the
underlying error message. -/
def fromErr (e : String) : List Diagnostic :=
  [{ severity := .error, summary := e, detail := "" }]

/-- The resource record.  `id` is the tracked identifier (`d.Id()`);
`namespace'` models the schema field named `namespace` (a Lean keyword).
Optional schema fields whose `d.Get` may return `nil` are `Option`s. -/
structure ResourceData where
  id : String
  name : String
  distro : Option String
  extra_values : List String
  chart : Option String
  chart_version : Option String
  chart_repo : Option String
  local_chart_dir : Option String
  kubernetes_version : Option String
  create_namespace : Option Bool
  disable_ingress_sync : Option Bool
  expose : Option Bool
  expose_local : Option Bool
  isolate : Option Bool
  context : Option String
  namespace' : Option String
  status : String
  created : String
deriving DecidableEq, Repr

/-- Result of `cmd.CombinedOutput()`: the combined output, tagged by whether
the process failed (`err ≠ nil`). -/
inductive CmdResult where
  | ok (output : String)
  | err (output : String)
deriving DecidableEq, Repr

/-- Go's `fmt.Sprintf("%v", b)` for a boolean. -/
def boolStr (b : Bool) : String :=
  if b then "true" else "false"

/-- Tokens appended by `append(args, flag, value)` under the guard
`value != nil && value != ""` (the `--namespace` / `--context` pattern). -/
def optPairTok (flag : String) (o : Option String) : List String :=
  match o with
  | none => []
  | some s => if s = "" then [] else [flag, s]

/-- Token appended by `append(args, fmt.Sprintf("--flag=%s", value))` under
the guard `value != nil && value != ""` (the `--distro` /
`--kubernetes-version` pattern). -/
def optEqTok (pre : String) (o : Option String) : List String :=
  match o with
  | none => []
  | some s => if s = "" then [] else [pre ++ s]

/-- Token appended by `append(args, fmt.Sprintf("--flag=%v", value))` under
the guard `value != nil` (the boolean-flag pattern). -/
def optBoolTok (pre : String) (o : Option Bool) : List String :=
  match o with
  | none => []
  | some b => [pre ++ boolStr b]

/-- Model of `vclusterBaseArgs`: appends `--namespace <ns>` when non-empty, then
`--context <ctx>` when non-empty, to the given argument list. -/
def vclusterBaseArgs (d : ResourceData) (args : List String) : List String :=
  let args := args ++ optPairTok "--namespace" d.namespace'
  let args := args ++ optPairTok "--context" d.context
  args

/-- The argument vector built by `resourceVClusterCreate` before executing
`vcluster`, mirroring the Go append sequence. -/
def createArgs (d : ResourceData) : List String :=
  let args := vclusterBaseArgs d ["create", d.name, "--connect=false"]
  let args := args ++ optEqTok "--distro=" d.distro
  let args := args ++ optBoolTok "--isolate=" d.isolate
  let args := args ++ optBoolTok "--expose=" d.expose
  let args := args ++ optBoolTok "--expose-local=" d.expose_local
  let args := args ++ optBoolTok "--disable-ingress-sync=" d.disable_ingress_sync
  let args := args ++ optBoolTok "--create-namespace=" d.create_namespace
  let args := args ++ optEqTok "--kubernetes-version=" d.kubernetes_version
  args

/-- The argument vector built by `resourceVClusterRead`. -/
def readArgs (d : ResourceData) : List String :=
  vclusterBaseArgs d ["list", "--output", "json"]

/-- The argument vector built by `resourceVClusterDelete`. -/
def deleteArgs (d : ResourceData) : List String :=
  vclusterBaseArgs d ["delete", d.name]

/-- The diagnostic produced on invocation failure: summary is the executed
command line (`"vcluster " + strings.Join(args, " ")`), detail the raw
combined output. -/
def invokeFailDiag (args : List String) (output : String) : List Diagnostic :=
  [{ severity := .error
     summary := "vcluster " ++ String.intercalate " " args
     detail := output }]

/-- Model of `resourceVClusterCreate`: builds the create vector, executes it; on
failure returns the command-line diagnostic with the record untouched, on
success sets the tracked identifier and the `name` field to the vcluster
name. -/
def resourceVClusterCreate (d : ResourceData) (res : CmdResult) :
    List (List String) × List Diagnostic × ResourceData :=
  let args := createArgs d
  match res with
  | .err output => ([args], invokeFailDiag args output, d)
  | .ok _ => ([args], [], { d with id := d.name, name := d.name })

/-- Structure `ListEntry`: one record of the `vcluster list --output json` result.
`Created` (a `time.Time` in Go) is modelled as its textual timestamp. -/
structure ListEntry where
  Name : String
  Namespace : String
  Status : String
  Created : String
  Context : String
deriving DecidableEq, Repr

/-- The Go zero value `ListEntry{}`, used as the absence sentinel. -/
def zeroListEntry : ListEntry :=
  { Name := "", Namespace := "", Status := "", Created := "", Context := "" }

/-- The scan loop of `resourceVClusterRead`: starting from the zero value,
overwrite the accumulator with every entry whose `Name` equals the tracked
identifier. -/
def selectEntry (id : String) (entries : List ListEntry) : ListEntry :=
  entries.foldl (fun acc e => if e.Name = id then e else acc) zeroListEntry

/-- The part of `resourceVClusterRead` after the process call: decode the
output (failure modelled by `Except.error`, surfaced via `diag.FromErr`),
scan for the tracked identifier, clear the identifier when the sentinel
check succeeds, otherwise overwrite `name`/`status`/`created` from the
matched entry. -/
def readApply (st : ResourceData) (decoded : Except String (List ListEntry)) :
    List Diagnostic × ResourceData :=
  match decoded with
  | .error e => (fromErr e, st)
  | .ok entries =>
    let resourceEntry := selectEntry st.id entries
    if resourceEntry = zeroListEntry then
      ([], { st with id := "" })
    else
      ([], { st with
               name := resourceEntry.Name
               status := resourceEntry.Status
               created := resourceEntry.Created })

/-- Model of `resourceVClusterRead`: run `list --output json`; on invocation failure
report the command line and output; otherwise decode and apply the scan. -/
def resourceVClusterRead (st : ResourceData) (res : CmdResult)
    (decode : String → Except String (List ListEntry)) :
    List (List String) × List Diagnostic × ResourceData :=
  let args := readArgs st
  match res with
  | .err output => ([args], invokeFailDiag args output, st)
  | .ok output =>
    let r := readApply st (decode output)
    ([args], r.1, r.2)

/-- Model of `resourceVClusterUpdate`: the Go body is `return nil` — no process is
executed, no diagnostic raised, no field of the record touched. -/
def resourceVClusterUpdate (st : ResourceData) :
    List (List String) × List Diagnostic × ResourceData :=
  ([], [], st)

/-- Model of `resourceVClusterDelete`: builds `delete <name>` plus targeting flags
and executes it; the record itself is never modified. -/
def resourceVClusterDelete (d : ResourceData) (res : CmdResult) :
    List (List String) × List Diagnostic × ResourceData :=
  let args := deleteArgs d
  match res with
  | .err output => ([args], invokeFailDiag args output, d)
  | .ok _ => ([args], [], d)

/-! Specification-side definitions used to state the claims. -/

/-- The shared targeting flags in the order `vclusterBaseArgs` appends
them. -/
def targetingFlags (d : ResourceData) : List String :=
  optPairTok "--namespace" d.namespace' ++ optPairTok "--context" d.context

/-- The operation-specific flags of Create, in emission order. -/
def createSpecificFlags (d : ResourceData) : List String :=
  optEqTok "--distro=" d.distro
    ++ optBoolTok "--isolate=" d.isolate
    ++ optBoolTok "--expose=" d.expose
    ++ optBoolTok "--expose-local=" d.expose_local
    ++ optBoolTok "--disable-ingress-sync=" d.disable_ingress_sync
    ++ optBoolTok "--create-namespace=" d.create_namespace
    ++ optEqTok "--kubernetes-version=" d.kubernetes_version

/-- The last entry, in document order, whose `Name` equals the tracked
identifier. -/
def lastMatch (id : String) (entries : List ListEntry) : Option ListEntry :=
  (entries.filter (fun e => decide (e.Name = id))).getLast?

/-- Number of occurrences of a token in an argument vector. -/
def countTok (tok : String) : List String → Nat
  | [] => 0
  | x :: xs => (if x = tok then 1 else 0) + countTok tok xs

/-- The string begins with `--`, as every emitted flag token does. -/
def startsDashDash (x : String) : Prop :=
  x.data[0]? = some '-' ∧ x.data[1]? = some '-'

instance (x : String) : Decidable (startsDashDash x) :=
  inferInstanceAs (Decidable (_ ∧ _))

/-- An optional string field whose value, when present, does not begin with
`--` (so it cannot collide with a flag token). -/
def optNoDash : Option String → Prop
  | none => True
  | some s => ¬ startsDashDash s

instance (o : Option String) : Decidable (optNoDash o) :=
  match o with
  | none => isTrue trivial
  | some s => inferInstanceAs (Decidable (¬ startsDashDash s))

/-- A record with every optional field absent, used to build concrete
witnesses. -/
def emptyData : ResourceData :=
  { id := "", name := "", distro := none, extra_values := [], chart := none
    chart_version := none, chart_repo := none, local_chart_dir := none
    kubernetes_version := none, create_namespace := none
    disable_ingress_sync := none, expose := none, expose_local := none
    isolate := none, context := none, namespace' := none
    status := "", created := "" }

/-- An optional string field whose value, when present, differs from `x`. -/
def optAllNe (v : Option String) (x : String) : Prop :=
  match v with
  | none => True
  | some s => x ≠ s

instance (v : Option String) (x : String) : Decidable (optAllNe v x) :=
  match v with
  | none => isTrue trivial
  | some s => inferInstanceAs (Decidable (x ≠ s))

/-- The record of the spec's Create example: `name="dev1"`, `distro="k3s"`,
`isolate=true`, `namespace="team-a"`, everything else absent. -/
def devData : ResourceData :=
  { emptyData with
      name := "dev1", distro := some "k3s", isolate := some true
      namespace' := some "team-a" }

/-- A list entry as reported by `vcluster list` for a running cluster. -/
def dev1Entry : ListEntry :=
  { Name := "dev1", Namespace := "team-a", Status := "Running"
    Created := "2022-12-09T03:12:10Z", Context := "kind-kind" }

/-- A record with every boolean flag field present, used as a witness
input. -/
def allFlagsData : ResourceData :=
  { emptyData with
      name := "dev1", isolate := some true, expose := some false
      expose_local := some false, disable_ingress_sync := some true
      create_namespace := some false }

/-- A record whose tracked identifier is empty while observed fields are
populated, used to exhibit the absence-sentinel conflation. -/
def ghostState : ResourceData :=
  { emptyData with
      name := "old-name", status := "Running"
      created := "2022-12-09T03:12:10Z" }

/-! Helper lemmas about strings and tokens. -/

theorem data_append (s t : String) : (s ++ t).data = s.data ++ t.data := by
  cases s; cases t; rfl

theorem str_ne (s t : String) (i : Nat) (h : s.data[i]? ≠ t.data[i]?) :
    s ≠ t :=
  fun e => h (by rw [e])

theorem data_get_append (p s : String) (i : Nat) (hp : i < p.data.length) :
    (p ++ s).data[i]? = p.data[i]? := by
  rw [data_append]
  exact List.getElem?_append_left hp

theorem append_ne_lit (p s q : String) (i : Nat) (hp : i < p.data.length)
    (h : p.data[i]? ≠ q.data[i]?) : p ++ s ≠ q := by
  apply str_ne _ _ i
  rw [data_get_append p s i hp]
  exact h

theorem append_ne_append (p s q t : String) (i : Nat)
    (hp : i < p.data.length) (hq : i < q.data.length)
    (h : p.data[i]? ≠ q.data[i]?) : p ++ s ≠ q ++ t := by
  apply str_ne _ _ i
  rw [data_get_append p s i hp, data_get_append q t i hq]
  exact h

theorem ne_of_dashdash (x y : String) (hx : ¬ startsDashDash x)
    (hy : startsDashDash y) : x ≠ y :=
  fun e => hx (e ▸ hy)

theorem startsDashDash_append (p s : String) (hlen : 2 ≤ p.data.length)
    (hp : startsDashDash p) : startsDashDash (p ++ s) :=
  ⟨by rw [data_get_append p s 0 (by omega)]; exact hp.1,
   by rw [data_get_append p s 1 (by omega)]; exact hp.2⟩

theorem optNoDash_some {o : Option String} {s : String} (h : optNoDash o)
    (hs : o = some s) : ¬ startsDashDash s := by
  subst hs; exact h

/-! Helper lemmas about token counting. -/

theorem countTok_nil (tok : String) : countTok tok [] = 0 := rfl

theorem countTok_cons (tok x : String) (xs : List String) :
    countTok tok (x :: xs) = (if x = tok then 1 else 0) + countTok tok xs :=
  rfl

theorem countTok_cons_ne (tok x : String) (xs : List String) (h : x ≠ tok) :
    countTok tok (x :: xs) = countTok tok xs := by
  rw [countTok_cons, if_neg h, Nat.zero_add]

theorem countTok_append (tok : String) (l₁ l₂ : List String) :
    countTok tok (l₁ ++ l₂) = countTok tok l₁ + countTok tok l₂ := by
  induction l₁ with
  | nil => rw [List.nil_append, countTok_nil, Nat.zero_add]
  | cons x xs ih =>
    rw [List.cons_append, countTok_cons, countTok_cons, ih, Nat.add_assoc]

theorem countTok_eq_zero (tok : String) (l : List String) :
    countTok tok l = 0 ↔ tok ∉ l := by
  induction l with
  | nil => simp [countTok_nil]
  | cons x xs ih =>
    rw [countTok_cons]
    by_cases h : x = tok
    · subst h; simp
    · rw [if_neg h, Nat.zero_add, ih]
      simp only [List.mem_cons, not_or]
      exact ⟨fun hx => ⟨fun e => h e.symm, hx⟩, fun hx => hx.2⟩

theorem countTok_optPair_zero (flag : String) (o : Option String)
    (tok : String) (h1 : flag ≠ tok) (h2 : ∀ s, o = some s → s ≠ tok) :
    countTok tok (optPairTok flag o) = 0 := by
  match o with
  | none => rfl
  | some s =>
    show countTok tok (if s = "" then [] else [flag, s]) = 0
    split
    · rfl
    · rw [countTok_cons_ne _ _ _ h1, countTok_cons_ne _ _ _ (h2 s rfl)]
      rfl

theorem countTok_optEq_zero (pre : String) (o : Option String)
    (tok : String) (h : ∀ x, pre ++ x ≠ tok) :
    countTok tok (optEqTok pre o) = 0 := by
  match o with
  | none => rfl
  | some s =>
    show countTok tok (if s = "" then [] else [pre ++ s]) = 0
    split
    · rfl
    · rw [countTok_cons_ne _ _ _ (h s)]
      rfl

theorem countTok_optBool_zero (pre : String) (o : Option Bool)
    (tok : String) (h : ∀ x, pre ++ x ≠ tok) :
    countTok tok (optBoolTok pre o) = 0 := by
  match o with
  | none => rfl
  | some b =>
    show countTok tok [pre ++ boolStr b] = 0
    rw [countTok_cons_ne _ _ _ (h (boolStr b))]
    rfl

theorem countTok_optBool_one (pre : String) (b : Bool) :
    countTok (pre ++ boolStr b) (optBoolTok pre (some b)) = 1 := by
  show countTok (pre ++ boolStr b) [pre ++ boolStr b] = 1
  rw [countTok_cons, if_pos rfl]
  rfl

theorem createArgs_eq (d : ResourceData) :
    createArgs d
      = ["create", d.name, "--connect=false"]
        ++ optPairTok "--namespace" d.namespace'
        ++ optPairTok "--context" d.context
        ++ optEqTok "--distro=" d.distro
        ++ optBoolTok "--isolate=" d.isolate
        ++ optBoolTok "--expose=" d.expose
        ++ optBoolTok "--expose-local=" d.expose_local
        ++ optBoolTok "--disable-ingress-sync=" d.disable_ingress_sync
        ++ optBoolTok "--create-namespace=" d.create_namespace
        ++ optEqTok "--kubernetes-version=" d.kubernetes_version := rfl

theorem readArgs_eq (d : ResourceData) :
    readArgs d
      = ["list", "--output", "json"]
        ++ optPairTok "--namespace" d.namespace'
        ++ optPairTok "--context" d.context := rfl

theorem deleteArgs_eq (d : ResourceData) :
    deleteArgs d
      = ["delete", d.name]
        ++ optPairTok "--namespace" d.namespace'
        ++ optPairTok "--context" d.context := rfl

theorem countTok_createArgs (d : ResourceData) (tok : String) :
    countTok tok (createArgs d)
      = countTok tok ["create", d.name, "--connect=false"]
        + countTok tok (optPairTok "--namespace" d.namespace')
        + countTok tok (optPairTok "--context" d.context)
        + countTok tok (optEqTok "--distro=" d.distro)
        + countTok tok (optBoolTok "--isolate=" d.isolate)
        + countTok tok (optBoolTok "--expose=" d.expose)
        + countTok tok (optBoolTok "--expose-local=" d.expose_local)
        + countTok tok (optBoolTok "--disable-ingress-sync=" d.disable_ingress_sync)
        + countTok tok (optBoolTok "--create-namespace=" d.create_namespace)
        + countTok tok (optEqTok "--kubernetes-version=" d.kubernetes_version) := by
  rw [createArgs_eq]
  repeat rw [countTok_append]

theorem countTok_readArgs (d : ResourceData) (tok : String) :
    countTok tok (readArgs d)
      = countTok tok ["list", "--output", "json"]
        + countTok tok (optPairTok "--namespace" d.namespace')
        + countTok tok (optPairTok "--context" d.context) := by
  rw [readArgs_eq]
  repeat rw [countTok_append]

theorem countTok_deleteArgs (d : ResourceData) (tok : String) :
    countTok tok (deleteArgs d)
      = countTok tok ["delete", d.name]
        + countTok tok (optPairTok "--namespace" d.namespace')
        + countTok tok (optPairTok "--context" d.context) := by
  rw [deleteArgs_eq]
  repeat rw [countTok_append]

/-! Helper lemmas about the Read scan loop. -/

theorem getLast?_cons_getD {α : Type} (x : α) (t : List α) :
    (x :: t).getLast? = some (t.getLast?.getD x) := by
  induction t generalizing x with
  | nil => rfl
  | cons y ys ih =>
    rw [List.getLast?_cons_cons, ih y]
    rfl

theorem foldl_pick (id : String) (l : List ListEntry) (a : ListEntry) :
    l.foldl (fun acc e => if e.Name = id then e else acc) a
      = ((l.filter (fun e => decide (e.Name = id))).getLast?).getD a := by
  induction l generalizing a with
  | nil => rfl
  | cons x xs ih =>
    rw [List.foldl_cons, List.filter_cons]
    by_cases hx : x.Name = id
    · rw [if_pos hx, if_pos (by simpa using hx), ih x, getLast?_cons_getD]
      rfl
    · rw [if_neg hx, if_neg (by simpa using hx), ih a]

theorem selectEntry_eq_lastMatch (id : String) (entries : List ListEntry) :
    selectEntry id entries = (lastMatch id entries).getD zeroListEntry := by
  unfold selectEntry lastMatch
  exact foldl_pick id entries zeroListEntry

theorem lastMatch_name {id : String} {entries : List ListEntry}
    {e : ListEntry} (h : lastMatch id entries = some e) : e.Name = id := by
  unfold lastMatch at h
  have hm : e ∈ entries.filter (fun e => decide (e.Name = id)) :=
    List.mem_of_mem_getLast? h
  have := (List.mem_filter.mp hm).2
  simpa using this

theorem lastMatch_none_of_no_match {id : String} {entries : List ListEntry}
    (h : ∀ e ∈ entries, e.Name ≠ id) : lastMatch id entries = none := by
  unfold lastMatch
  have : entries.filter (fun e => decide (e.Name = id)) = [] := by
    rw [List.filter_eq_nil_iff]
    intro e he
    simpa using h e he
  rw [this]
  rfl

theorem lastMatch_isSome_of_match {id : String} {entries : List ListEntry}
    {e : ListEntry} (he : e ∈ entries) (hn : e.Name = id) :
    ∃ m, lastMatch id entries = some m := by
  unfold lastMatch
  have hm : e ∈ entries.filter (fun e => decide (e.Name = id)) :=
    List.mem_filter.mpr ⟨he, by simpa using hn⟩
  have hne : entries.filter (fun e => decide (e.Name = id)) ≠ [] := by
    intro hnil
    rw [hnil] at hm
    exact (List.not_mem_nil e) hm
  obtain ⟨m, hm⟩ := Option.isSome_iff_exists.mp (List.getLast?_isSome.mpr hne)
  exact ⟨m, hm⟩

theorem zeroListEntry_name : zeroListEntry.Name = "" := rfl

/-! Further small helper lemmas. -/

theorem optAllNe_some {v : Option String} {x s : String} (h : optAllNe v x)
    (hs : v = some s) : x ≠ s := by
  subst hs; exact h

theorem optPairTok_some (flag s : String) (hs : s ≠ "") :
    optPairTok flag (some s) = [flag, s] := by
  show (if s = "" then [] else [flag, s]) = [flag, s]
  rw [if_neg hs]

theorem optPairTok_absent (flag : String) (o : Option String)
    (h : o = none ∨ o = some "") : optPairTok flag o = [] := by
  rcases h with h | h <;> subst h
  · rfl
  · show (if ("" : String) = "" then ([] : List String) else [flag, ""]) = []
    rw [if_pos rfl]

theorem countTok_optPair_one (flag s : String) (hs : s ≠ "")
    (hsf : s ≠ flag) : countTok flag (optPairTok flag (some s)) = 1 := by
  rw [optPairTok_some flag s hs, countTok_cons, if_pos rfl,
      countTok_cons_ne _ _ _ hsf, countTok_nil]

theorem countTok_optEq_none (pre tok : String) :
    countTok tok (optEqTok pre none) = 0 := rfl

theorem readApply_ok (st : ResourceData) (entries : List ListEntry) :
    readApply st (.ok entries)
      = if selectEntry st.id entries = zeroListEntry
        then ([], { st with id := "" })
        else ([], { st with
                      name := (selectEntry st.id entries).Name
                      status := (selectEntry st.id entries).Status
                      created := (selectEntry st.id entries).Created }) := rfl

/-! The claims. -/

/-- C1: for every Create and Delete invocation the targeting flags
`--namespace`/`--context` (each emitted only when its field is non-empty,
in that order, inside `targetingFlags`) appear in the argument vector
before the operation-specific flags, and for every Read invocation they
appear after the tokens `--output json`. -/
theorem C1_targeting_flag_order (d : ResourceData) :
    createArgs d
      = ["create", d.name, "--connect=false"]
        ++ targetingFlags d ++ createSpecificFlags d
    ∧ deleteArgs d = ["delete", d.name] ++ targetingFlags d
    ∧ readArgs d = ["list", "--output", "json"] ++ targetingFlags d := by
  refine ⟨?_, ?_, ?_⟩ <;>
    simp [createArgs, deleteArgs, readArgs, vclusterBaseArgs, targetingFlags,
      createSpecificFlags, List.append_assoc]

/-- C2 counterexample: on the record of the spec's example
(`name="dev1"`, `distro="k3s"`, `isolate=true`, `namespace="team-a"`,
everything else absent) Create does not produce the claimed vector with
`--namespace team-a` after the operation-specific flags. -/
theorem C2_counterexample :
    createArgs devData
      ≠ ["create", "dev1", "--connect=false", "--distro=k3s",
         "--isolate=true", "--namespace", "team-a"] := by
  decide

/-- C2 amended: Create on that record produces exactly
`create dev1 --connect=false --namespace team-a --distro=k3s
--isolate=true` — the targeting flags precede the operation-specific
flags — and no `--context` token. -/
theorem C2_amended_vector :
    createArgs devData
      = ["create", "dev1", "--connect=false", "--namespace", "team-a",
         "--distro=k3s", "--isolate=true"] := by
  decide

/-- C8: Update performs no external invocation, changes no tracked state,
and returns no diagnostic, for every record. -/
theorem C8_update_noop (st : ResourceData) :
    resourceVClusterUpdate st = ([], [], st) := rfl

/-- C7: failures leave tracked state unchanged.  A failed Create returns
the diagnostic carrying the command line and the raw output, with the
record (in particular its identifier) untouched; a Read whose decode step
fails returns the decode error as a diagnostic and leaves the record
exactly as it was. -/
theorem C7_failure_atomicity :
    (∀ (d : ResourceData) (output : String),
        resourceVClusterCreate d (.err output)
          = ([createArgs d], invokeFailDiag (createArgs d) output, d))
    ∧ (∀ (st : ResourceData) (output : String)
          (decode : String → Except String (List ListEntry)) (e : String),
        decode output = .error e →
          resourceVClusterRead st (.ok output) decode
            = ([readArgs st], fromErr e, st)) := by
  constructor
  · intro d output
    rfl
  · intro st output decode e h
    show ([readArgs st], (readApply st (decode output)).1,
          (readApply st (decode output)).2)
      = ([readArgs st], fromErr e, st)
    rw [h]
    rfl

/-- C7 witness: a concrete failing decode on a concrete record. -/
theorem C7_witness :
    resourceVClusterRead ghostState (.ok "oops")
        (fun _ => .error "invalid JSON")
      = ([readArgs ghostState], fromErr "invalid JSON", ghostState) :=
  C7_failure_atomicity.2 ghostState "oops" (fun _ => .error "invalid JSON")
    "invalid JSON" rfl

/-- C6: when no decoded entry's Name equals the tracked identifier, Read
clears the identifier, raises no diagnostic, and leaves every other field
of the record unchanged. -/
theorem C6_no_match_clears (st : ResourceData) (entries : List ListEntry)
    (h : ∀ e ∈ entries, e.Name ≠ st.id) :
    (readApply st (.ok entries)).1 = []
    ∧ (readApply st (.ok entries)).2.id = ""
    ∧ (readApply st (.ok entries)).2.name = st.name
    ∧ (readApply st (.ok entries)).2.status = st.status
    ∧ (readApply st (.ok entries)).2.created = st.created
    ∧ (readApply st (.ok entries)).2.distro = st.distro
    ∧ (readApply st (.ok entries)).2.extra_values = st.extra_values
    ∧ (readApply st (.ok entries)).2.chart = st.chart
    ∧ (readApply st (.ok entries)).2.chart_version = st.chart_version
    ∧ (readApply st (.ok entries)).2.chart_repo = st.chart_repo
    ∧ (readApply st (.ok entries)).2.local_chart_dir = st.local_chart_dir
    ∧ (readApply st (.ok entries)).2.kubernetes_version
        = st.kubernetes_version
    ∧ (readApply st (.ok entries)).2.create_namespace = st.create_namespace
    ∧ (readApply st (.ok entries)).2.disable_ingress_sync
        = st.disable_ingress_sync
    ∧ (readApply st (.ok entries)).2.expose = st.expose
    ∧ (readApply st (.ok entries)).2.expose_local = st.expose_local
    ∧ (readApply st (.ok entries)).2.isolate = st.isolate
    ∧ (readApply st (.ok entries)).2.context = st.context
    ∧ (readApply st (.ok entries)).2.namespace' = st.namespace' := by
  have hsel : selectEntry st.id entries = zeroListEntry := by
    rw [selectEntry_eq_lastMatch, lastMatch_none_of_no_match h]
    rfl
  have happ : readApply st (.ok entries) = ([], { st with id := "" }) := by
    rw [readApply_ok, hsel, if_pos rfl]
  rw [happ]
  exact ⟨rfl, rfl, rfl, rfl, rfl, rfl, rfl, rfl, rfl, rfl, rfl, rfl, rfl,
    rfl, rfl, rfl, rfl, rfl, rfl⟩

/-- C6 witness: an empty list output with a tracked identifier clears the
identifier and keeps the observed status. -/
theorem C6_witness :
    (readApply { ghostState with id := "dev1" } (.ok [])).2.id = ""
    ∧ (readApply { ghostState with id := "dev1" } (.ok [])).2.status
        = "Running" := by
  have h := C6_no_match_clears { ghostState with id := "dev1" } []
    (by simp)
  exact ⟨h.2.1, h.2.2.2.1⟩

/-- C5 counterexample: with the empty tracked identifier and a decoded
list whose sole entry is the all-zero entry, that entry's Name equals the
identifier, yet Read does not overwrite `status` from it (it takes the
sentinel branch instead). -/
theorem C5_counterexample :
    zeroListEntry.Name = ghostState.id
    ∧ (readApply ghostState (.ok [zeroListEntry])).2.status
        ≠ zeroListEntry.Status := by
  constructor
  · rfl
  · decide

/-- C5 amended: provided the tracked identifier is non-empty, whenever the
decoded list has a matching entry, Read selects the last matching entry in
document order and overwrites `name`, `status` and `created` from it,
raising no diagnostic. -/
theorem C5_amended_last_match (st : ResourceData) (entries : List ListEntry)
    (e : ListEntry) (hid : st.id ≠ "")
    (hlast : lastMatch st.id entries = some e) :
    readApply st (.ok entries)
      = ([], { st with
                 name := e.Name, status := e.Status,
                 created := e.Created }) := by
  have hsel : selectEntry st.id entries = e := by
    rw [selectEntry_eq_lastMatch, hlast]
    rfl
  have hne : e ≠ zeroListEntry := by
    intro hz
    have hn := lastMatch_name hlast
    rw [hz] at hn
    exact hid hn.symm
  rw [readApply_ok, hsel, if_neg hne]

/-- C5 witness: a singleton matching list at identifier `dev1`. -/
theorem C5_witness :
    readApply { emptyData with id := "dev1" } (.ok [dev1Entry])
      = ([], { emptyData with
                 id := "dev1", name := "dev1", status := "Running"
                 created := "2022-12-09T03:12:10Z" }) :=
  C5_amended_last_match { emptyData with id := "dev1" } [dev1Entry]
    dev1Entry (by decide) (by decide)

/-- C9: for a non-empty tracked identifier, Read clears the identifier if
and only if no decoded entry's Name equals it; and whenever the sentinel
branch is taken although a last match exists, the identifier was empty and
that match is the all-zero entry. -/
theorem C9_sentinel (st : ResourceData) (entries : List ListEntry) :
    (st.id ≠ "" →
      ((readApply st (.ok entries)).2.id = ""
        ↔ ∀ e ∈ entries, e.Name ≠ st.id))
    ∧ (∀ e, lastMatch st.id entries = some e →
        selectEntry st.id entries = zeroListEntry →
        st.id = "" ∧ e = zeroListEntry) := by
  constructor
  · intro hid
    constructor
    · intro hclear e he hn
      obtain ⟨m, hm⟩ := lastMatch_isSome_of_match he hn
      have hsel : selectEntry st.id entries = m := by
        rw [selectEntry_eq_lastMatch, hm]
        rfl
      have hmne : m ≠ zeroListEntry := by
        intro hz
        have hmn := lastMatch_name hm
        rw [hz] at hmn
        exact hid hmn.symm
      rw [readApply_ok, hsel, if_neg hmne] at hclear
      exact hid hclear
    · intro hno
      have hsel : selectEntry st.id entries = zeroListEntry := by
        rw [selectEntry_eq_lastMatch, lastMatch_none_of_no_match hno]
        rfl
      rw [readApply_ok, hsel, if_pos rfl]
  · intro e hlast hzero
    have hsel : selectEntry st.id entries = e := by
      rw [selectEntry_eq_lastMatch, hlast]
      rfl
    have he : e = zeroListEntry := by rw [← hsel, hzero]
    refine ⟨?_, he⟩
    have hn := lastMatch_name hlast
    rw [he] at hn
    exact hn.symm

/-- C9 witness: with identifier `dev1` and an empty list, Read clears. -/
theorem C9_witness :
    (readApply { ghostState with id := "dev1" } (.ok [])).2.id = "" :=
  ((C9_sentinel { ghostState with id := "dev1" } []).1 (by decide)).mpr
    (by simp)

theorem countTok_createArgs_bools (d : ResourceData) (tok : String)
    (hname : d.name ≠ tok)
    (hns : ∀ s, d.namespace' = some s → s ≠ tok)
    (hctx : ∀ s, d.context = some s → s ≠ tok)
    (h1 : "create" ≠ tok) (h2 : "--connect=false" ≠ tok)
    (h3 : "--namespace" ≠ tok) (h4 : "--context" ≠ tok)
    (h5 : ∀ x, "--distro=" ++ x ≠ tok)
    (h6 : ∀ x, "--kubernetes-version=" ++ x ≠ tok) :
    countTok tok (createArgs d)
      = countTok tok (optBoolTok "--isolate=" d.isolate)
        + countTok tok (optBoolTok "--expose=" d.expose)
        + countTok tok (optBoolTok "--expose-local=" d.expose_local)
        + countTok tok (optBoolTok "--disable-ingress-sync="
            d.disable_ingress_sync)
        + countTok tok (optBoolTok "--create-namespace="
            d.create_namespace) := by
  rw [countTok_createArgs, countTok_cons_ne _ _ _ h1,
      countTok_cons_ne _ _ _ hname, countTok_cons_ne _ _ _ h2, countTok_nil,
      countTok_optPair_zero _ _ _ h3 hns,
      countTok_optPair_zero _ _ _ h4 hctx,
      countTok_optEq_zero _ _ _ h5, countTok_optEq_zero _ _ _ h6]
  omega

/-- C3: whenever one of the five boolean flag fields is present — true or
false — the Create argument vector contains the token `--flagname=<bool>`
for it exactly once; stated for records whose free-form string fields
(name, namespace, context) do not themselves begin with `--` and so cannot
coincide with a flag token. -/
theorem C3_bool_flags_exactly_once (d : ResourceData)
    (hname : ¬ startsDashDash d.name)
    (hns : optNoDash d.namespace') (hctx : optNoDash d.context) :
    (∀ b, d.isolate = some b →
        countTok ("--isolate=" ++ boolStr b) (createArgs d) = 1)
    ∧ (∀ b, d.expose = some b →
        countTok ("--expose=" ++ boolStr b) (createArgs d) = 1)
    ∧ (∀ b, d.expose_local = some b →
        countTok ("--expose-local=" ++ boolStr b) (createArgs d) = 1)
    ∧ (∀ b, d.disable_ingress_sync = some b →
        countTok ("--disable-ingress-sync=" ++ boolStr b)
          (createArgs d) = 1)
    ∧ (∀ b, d.create_namespace = some b →
        countTok ("--create-namespace=" ++ boolStr b)
          (createArgs d) = 1) := by
  refine ⟨?_, ?_, ?_, ?_, ?_⟩
  · intro b hb
    rw [countTok_createArgs_bools d _
        (ne_of_dashdash d.name _ hname
          (startsDashDash_append "--isolate=" (boolStr b)
            (by decide) (by decide)))
        (fun s hs => ne_of_dashdash s _ (optNoDash_some hns hs)
          (startsDashDash_append "--isolate=" (boolStr b)
            (by decide) (by decide)))
        (fun s hs => ne_of_dashdash s _ (optNoDash_some hctx hs)
          (startsDashDash_append "--isolate=" (boolStr b)
            (by decide) (by decide)))
        (Ne.symm (append_ne_lit "--isolate=" (boolStr b) "create" 0
          (by decide) (by decide)))
        (Ne.symm (append_ne_lit "--isolate=" (boolStr b) "--connect=false" 2
          (by decide) (by decide)))
        (Ne.symm (append_ne_lit "--isolate=" (boolStr b) "--namespace" 2
          (by decide) (by decide)))
        (Ne.symm (append_ne_lit "--isolate=" (boolStr b) "--context" 2
          (by decide) (by decide)))
        (fun x => append_ne_append "--distro=" x "--isolate=" (boolStr b) 2
          (by decide) (by decide) (by decide))
        (fun x => append_ne_append "--kubernetes-version=" x "--isolate="
          (boolStr b) 2 (by decide) (by decide) (by decide)),
      hb, countTok_optBool_one,
      countTok_optBool_zero "--expose=" _ _
        (fun x => append_ne_append "--expose=" x "--isolate=" (boolStr b) 2
          (by decide) (by decide) (by decide)),
      countTok_optBool_zero "--expose-local=" _ _
        (fun x => append_ne_append "--expose-local=" x "--isolate="
          (boolStr b) 2 (by decide) (by decide) (by decide)),
      countTok_optBool_zero "--disable-ingress-sync=" _ _
        (fun x => append_ne_append "--disable-ingress-sync=" x "--isolate="
          (boolStr b) 2 (by decide) (by decide) (by decide)),
      countTok_optBool_zero "--create-namespace=" _ _
        (fun x => append_ne_append "--create-namespace=" x "--isolate="
          (boolStr b) 2 (by decide) (by decide) (by decide))]
  · intro b hb
    rw [countTok_createArgs_bools d _
        (ne_of_dashdash d.name _ hname
          (startsDashDash_append "--expose=" (boolStr b)
            (by decide) (by decide)))
        (fun s hs => ne_of_dashdash s _ (optNoDash_some hns hs)
          (startsDashDash_append "--expose=" (boolStr b)
            (by decide) (by decide)))
        (fun s hs => ne_of_dashdash s _ (optNoDash_some hctx hs)
          (startsDashDash_append "--expose=" (boolStr b)
            (by decide) (by decide)))
        (Ne.symm (append_ne_lit "--expose=" (boolStr b) "create" 0
          (by decide) (by decide)))
        (Ne.symm (append_ne_lit "--expose=" (boolStr b) "--connect=false" 2
          (by decide) (by decide)))
        (Ne.symm (append_ne_lit "--expose=" (boolStr b) "--namespace" 2
          (by decide) (by decide)))
        (Ne.symm (append_ne_lit "--expose=" (boolStr b) "--context" 2
          (by decide) (by decide)))
        (fun x => append_ne_append "--distro=" x "--expose=" (boolStr b) 2
          (by decide) (by decide) (by decide))
        (fun x => append_ne_append "--kubernetes-version=" x "--expose="
          (boolStr b) 2 (by decide) (by decide) (by decide)),
      hb, countTok_optBool_one,
      countTok_optBool_zero "--isolate=" _ _
        (fun x => append_ne_append "--isolate=" x "--expose=" (boolStr b) 2
          (by decide) (by decide) (by decide)),
      countTok_optBool_zero "--expose-local=" _ _
        (fun x => append_ne_append "--expose-local=" x "--expose="
          (boolStr b) 8 (by decide) (by decide) (by decide)),
      countTok_optBool_zero "--disable-ingress-sync=" _ _
        (fun x => append_ne_append "--disable-ingress-sync=" x "--expose="
          (boolStr b) 2 (by decide) (by decide) (by decide)),
      countTok_optBool_zero "--create-namespace=" _ _
        (fun x => append_ne_append "--create-namespace=" x "--expose="
          (boolStr b) 2 (by decide) (by decide) (by decide))]
  · intro b hb
    rw [countTok_createArgs_bools d _
        (ne_of_dashdash d.name _ hname
          (startsDashDash_append "--expose-local=" (boolStr b)
            (by decide) (by decide)))
        (fun s hs => ne_of_dashdash s _ (optNoDash_some hns hs)
          (startsDashDash_append "--expose-local=" (boolStr b)
            (by decide) (by decide)))
        (fun s hs => ne_of_dashdash s _ (optNoDash_some hctx hs)
          (startsDashDash_append "--expose-local=" (boolStr b)
            (by decide) (by decide)))
        (Ne.symm (append_ne_lit "--expose-local=" (boolStr b) "create" 0
          (by decide) (by decide)))
        (Ne.symm (append_ne_lit "--expose-local=" (boolStr b)
          "--connect=false" 2 (by decide) (by decide)))
        (Ne.symm (append_ne_lit "--expose-local=" (boolStr b) "--namespace" 2
          (by decide) (by decide)))
        (Ne.symm (append_ne_lit "--expose-local=" (boolStr b) "--context" 2
          (by decide) (by decide)))
        (fun x => append_ne_append "--distro=" x "--expose-local="
          (boolStr b) 2 (by decide) (by decide) (by decide))
        (fun x => append_ne_append "--kubernetes-version=" x "--expose-local="
          (boolStr b) 2 (by decide) (by decide) (by decide)),
      hb, countTok_optBool_one,
      countTok_optBool_zero "--isolate=" _ _
        (fun x => append_ne_append "--isolate=" x "--expose-local="
          (boolStr b) 2 (by decide) (by decide) (by decide)),
      countTok_optBool_zero "--expose=" _ _
        (fun x => append_ne_append "--expose=" x "--expose-local="
          (boolStr b) 8 (by decide) (by decide) (by decide)),
      countTok_optBool_zero "--disable-ingress-sync=" _ _
        (fun x => append_ne_append "--disable-ingress-sync=" x
          "--expose-local=" (boolStr b) 2 (by decide) (by decide)
          (by decide)),
      countTok_optBool_zero "--create-namespace=" _ _
        (fun x => append_ne_append "--create-namespace=" x "--expose-local="
          (boolStr b) 2 (by decide) (by decide) (by decide))]
  · intro b hb
    rw [countTok_createArgs_bools d _
        (ne_of_dashdash d.name _ hname
          (startsDashDash_append "--disable-ingress-sync=" (boolStr b)
            (by decide) (by decide)))
        (fun s hs => ne_of_dashdash s _ (optNoDash_some hns hs)
          (startsDashDash_append "--disable-ingress-sync=" (boolStr b)
            (by decide) (by decide)))
        (fun s hs => ne_of_dashdash s _ (optNoDash_some hctx hs)
          (startsDashDash_append "--disable-ingress-sync=" (boolStr b)
            (by decide) (by decide)))
        (Ne.symm (append_ne_lit "--disable-ingress-sync=" (boolStr b)
          "create" 0 (by decide) (by decide)))
        (Ne.symm (append_ne_lit "--disable-ingress-sync=" (boolStr b)
          "--connect=false" 2 (by decide) (by decide)))
        (Ne.symm (append_ne_lit "--disable-ingress-sync=" (boolStr b)
          "--namespace" 2 (by decide) (by decide)))
        (Ne.symm (append_ne_lit "--disable-ingress-sync=" (boolStr b)
          "--context" 2 (by decide) (by decide)))
        (fun x => append_ne_append "--distro=" x "--disable-ingress-sync="
          (boolStr b) 5 (by decide) (by decide) (by decide))
        (fun x => append_ne_append "--kubernetes-version=" x
          "--disable-ingress-sync=" (boolStr b) 2 (by decide) (by decide)
          (by decide)),
      hb, countTok_optBool_one,
      countTok_optBool_zero "--isolate=" _ _
        (fun x => append_ne_append "--isolate=" x "--disable-ingress-sync="
          (boolStr b) 2 (by decide) (by decide) (by decide)),
      countTok_optBool_zero "--expose=" _ _
        (fun x => append_ne_append "--expose=" x "--disable-ingress-sync="
          (boolStr b) 2 (by decide) (by decide) (by decide)),
      countTok_optBool_zero "--expose-local=" _ _
        (fun x => append_ne_append "--expose-local=" x
          "--disable-ingress-sync=" (boolStr b) 2 (by decide) (by decide)
          (by decide)),
      countTok_optBool_zero "--create-namespace=" _ _
        (fun x => append_ne_append "--create-namespace=" x
          "--disable-ingress-sync=" (boolStr b) 2 (by decide) (by decide)
          (by decide))]
  · intro b hb
    rw [countTok_createArgs_bools d _
        (ne_of_dashdash d.name _ hname
          (startsDashDash_append "--create-namespace=" (boolStr b)
            (by decide) (by decide)))
        (fun s hs => ne_of_dashdash s _ (optNoDash_some hns hs)
          (startsDashDash_append "--create-namespace=" (boolStr b)
            (by decide) (by decide)))
        (fun s hs => ne_of_dashdash s _ (optNoDash_some hctx hs)
          (startsDashDash_append "--create-namespace=" (boolStr b)
            (by decide) (by decide)))
        (Ne.symm (append_ne_lit "--create-namespace=" (boolStr b) "create" 0
          (by decide) (by decide)))
        (Ne.symm (append_ne_lit "--create-namespace=" (boolStr b)
          "--connect=false" 3 (by decide) (by decide)))
        (Ne.symm (append_ne_lit "--create-namespace=" (boolStr b)
          "--namespace" 2 (by decide) (by decide)))
        (Ne.symm (append_ne_lit "--create-namespace=" (boolStr b)
          "--context" 3 (by decide) (by decide)))
        (fun x => append_ne_append "--distro=" x "--create-namespace="
          (boolStr b) 2 (by decide) (by decide) (by decide))
        (fun x => append_ne_append "--kubernetes-version=" x
          "--create-namespace=" (boolStr b) 2 (by decide) (by decide)
          (by decide)),
      hb, countTok_optBool_one,
      countTok_optBool_zero "--isolate=" _ _
        (fun x => append_ne_append "--isolate=" x "--create-namespace="
          (boolStr b) 2 (by decide) (by decide) (by decide)),
      countTok_optBool_zero "--expose=" _ _
        (fun x => append_ne_append "--expose=" x "--create-namespace="
          (boolStr b) 2 (by decide) (by decide) (by decide)),
      countTok_optBool_zero "--expose-local=" _ _
        (fun x => append_ne_append "--expose-local=" x "--create-namespace="
          (boolStr b) 2 (by decide) (by decide) (by decide)),
      countTok_optBool_zero "--disable-ingress-sync=" _ _
        (fun x => append_ne_append "--disable-ingress-sync=" x
          "--create-namespace=" (boolStr b) 2 (by decide) (by decide)
          (by decide))]

/-- C3 witness: on a record with all five boolean fields present, the
isolate flag token occurs exactly once. -/
theorem C3_witness :
    countTok ("--isolate=" ++ boolStr true) (createArgs allFlagsData) = 1 :=
  (C3_bool_flags_exactly_once allFlagsData (by decide) (by decide)
    (by decide)).1 true rfl

theorem countTok_createArgs_pairs (d : ResourceData) (tok : String)
    (hname : d.name ≠ tok)
    (h1 : "create" ≠ tok) (h2 : "--connect=false" ≠ tok)
    (hd : ∀ x, "--distro=" ++ x ≠ tok)
    (hi : ∀ x, "--isolate=" ++ x ≠ tok)
    (he : ∀ x, "--expose=" ++ x ≠ tok)
    (hel : ∀ x, "--expose-local=" ++ x ≠ tok)
    (hdis : ∀ x, "--disable-ingress-sync=" ++ x ≠ tok)
    (hcn : ∀ x, "--create-namespace=" ++ x ≠ tok)
    (hkv : ∀ x, "--kubernetes-version=" ++ x ≠ tok) :
    countTok tok (createArgs d)
      = countTok tok (optPairTok "--namespace" d.namespace')
        + countTok tok (optPairTok "--context" d.context) := by
  rw [countTok_createArgs, countTok_cons_ne _ _ _ h1,
      countTok_cons_ne _ _ _ hname, countTok_cons_ne _ _ _ h2, countTok_nil,
      countTok_optEq_zero _ _ _ hd, countTok_optBool_zero _ _ _ hi,
      countTok_optBool_zero _ _ _ he, countTok_optBool_zero _ _ _ hel,
      countTok_optBool_zero _ _ _ hdis, countTok_optBool_zero _ _ _ hcn,
      countTok_optEq_zero _ _ _ hkv]
  omega

theorem countTok_readArgs_pairs (d : ResourceData) (tok : String)
    (h1 : "list" ≠ tok) (h2 : "--output" ≠ tok) (h3 : "json" ≠ tok) :
    countTok tok (readArgs d)
      = countTok tok (optPairTok "--namespace" d.namespace')
        + countTok tok (optPairTok "--context" d.context) := by
  rw [countTok_readArgs, countTok_cons_ne _ _ _ h1,
      countTok_cons_ne _ _ _ h2, countTok_cons_ne _ _ _ h3, countTok_nil]
  omega

theorem countTok_deleteArgs_pairs (d : ResourceData) (tok : String)
    (h1 : "delete" ≠ tok) (h2 : d.name ≠ tok) :
    countTok tok (deleteArgs d)
      = countTok tok (optPairTok "--namespace" d.namespace')
        + countTok tok (optPairTok "--context" d.context) := by
  rw [countTok_deleteArgs, countTok_cons_ne _ _ _ h1,
      countTok_cons_ne _ _ _ h2, countTok_nil]
  omega

/-- C4: each optional string flag is emitted exactly when its value is
non-empty, and then exactly once with its value adjacent; when empty or
absent no such token appears at all; and with `distro` unset the Create
vector carries no `--distro=` token.  Stated for records whose free-form
string fields do not begin with `--`. -/
theorem C4_string_flags (d : ResourceData)
    (hname : ¬ startsDashDash d.name)
    (hns : optNoDash d.namespace') (hctx : optNoDash d.context) :
    (∀ s, d.namespace' = some s → s ≠ "" →
        countTok "--namespace" (createArgs d) = 1
        ∧ List.IsInfix ["--namespace", s] (createArgs d)
        ∧ countTok "--namespace" (readArgs d) = 1
        ∧ List.IsInfix ["--namespace", s] (readArgs d)
        ∧ countTok "--namespace" (deleteArgs d) = 1
        ∧ List.IsInfix ["--namespace", s] (deleteArgs d))
    ∧ (∀ s, d.context = some s → s ≠ "" →
        countTok "--context" (createArgs d) = 1
        ∧ List.IsInfix ["--context", s] (createArgs d)
        ∧ countTok "--context" (readArgs d) = 1
        ∧ List.IsInfix ["--context", s] (readArgs d)
        ∧ countTok "--context" (deleteArgs d) = 1
        ∧ List.IsInfix ["--context", s] (deleteArgs d))
    ∧ ((d.namespace' = none ∨ d.namespace' = some "") →
        countTok "--namespace" (createArgs d) = 0
        ∧ countTok "--namespace" (readArgs d) = 0
        ∧ countTok "--namespace" (deleteArgs d) = 0)
    ∧ ((d.context = none ∨ d.context = some "") →
        countTok "--context" (createArgs d) = 0
        ∧ countTok "--context" (readArgs d) = 0
        ∧ countTok "--context" (deleteArgs d) = 0)
    ∧ (d.distro = none → ∀ x, ("--distro=" ++ x) ∉ createArgs d) := by
  have hnsN : ∀ t, d.namespace' = some t → t ≠ "--namespace" :=
    fun t ht => ne_of_dashdash t _ (optNoDash_some hns ht) (by decide)
  have hnsC : ∀ t, d.namespace' = some t → t ≠ "--context" :=
    fun t ht => ne_of_dashdash t _ (optNoDash_some hns ht) (by decide)
  have hctxN : ∀ t, d.context = some t → t ≠ "--namespace" :=
    fun t ht => ne_of_dashdash t _ (optNoDash_some hctx ht) (by decide)
  have hctxC : ∀ t, d.context = some t → t ≠ "--context" :=
    fun t ht => ne_of_dashdash t _ (optNoDash_some hctx ht) (by decide)
  have hnameN : d.name ≠ "--namespace" :=
    ne_of_dashdash d.name _ hname (by decide)
  have hnameC : d.name ≠ "--context" :=
    ne_of_dashdash d.name _ hname (by decide)
  have createN := countTok_createArgs_pairs d "--namespace" hnameN
    (by decide) (by decide)
    (fun x => append_ne_lit "--distro=" x _ 2 (by decide) (by decide))
    (fun x => append_ne_lit "--isolate=" x _ 2 (by decide) (by decide))
    (fun x => append_ne_lit "--expose=" x _ 2 (by decide) (by decide))
    (fun x => append_ne_lit "--expose-local=" x _ 2 (by decide) (by decide))
    (fun x => append_ne_lit "--disable-ingress-sync=" x _ 2 (by decide)
      (by decide))
    (fun x => append_ne_lit "--create-namespace=" x _ 2 (by decide)
      (by decide))
    (fun x => append_ne_lit "--kubernetes-version=" x _ 2 (by decide)
      (by decide))
  have createC := countTok_createArgs_pairs d "--context" hnameC
    (by decide) (by decide)
    (fun x => append_ne_lit "--distro=" x _ 2 (by decide) (by decide))
    (fun x => append_ne_lit "--isolate=" x _ 2 (by decide) (by decide))
    (fun x => append_ne_lit "--expose=" x _ 2 (by decide) (by decide))
    (fun x => append_ne_lit "--expose-local=" x _ 2 (by decide) (by decide))
    (fun x => append_ne_lit "--disable-ingress-sync=" x _ 2 (by decide)
      (by decide))
    (fun x => append_ne_lit "--create-namespace=" x _ 3 (by decide)
      (by decide))
    (fun x => append_ne_lit "--kubernetes-version=" x _ 2 (by decide)
      (by decide))
  have readN := countTok_readArgs_pairs d "--namespace" (by decide)
    (by decide) (by decide)
  have readC := countTok_readArgs_pairs d "--context" (by decide)
    (by decide) (by decide)
  have deleteN := countTok_deleteArgs_pairs d "--namespace" (by decide)
    hnameN
  have deleteC := countTok_deleteArgs_pairs d "--context" (by decide)
    hnameC
  have ctxZeroN : countTok "--namespace" (optPairTok "--context" d.context)
      = 0 :=
    countTok_optPair_zero _ _ _ (by decide) hctxN
  have nsZeroC : countTok "--context" (optPairTok "--namespace" d.namespace')
      = 0 :=
    countTok_optPair_zero _ _ _ (by decide) hnsC
  refine ⟨?_, ?_, ?_, ?_, ?_⟩
  · intro s hs hse
    have hone : countTok "--namespace" (optPairTok "--namespace" d.namespace')
        = 1 := by
      rw [hs]
      exact countTok_optPair_one _ _ hse (hnsN s hs)
    refine ⟨?_, ?_, ?_, ?_, ?_, ?_⟩
    · rw [createN, hone, ctxZeroN]
    · exact ⟨["create", d.name, "--connect=false"],
        optPairTok "--context" d.context
          ++ optEqTok "--distro=" d.distro
          ++ optBoolTok "--isolate=" d.isolate
          ++ optBoolTok "--expose=" d.expose
          ++ optBoolTok "--expose-local=" d.expose_local
          ++ optBoolTok "--disable-ingress-sync=" d.disable_ingress_sync
          ++ optBoolTok "--create-namespace=" d.create_namespace
          ++ optEqTok "--kubernetes-version=" d.kubernetes_version,
        by rw [createArgs_eq, hs, optPairTok_some _ _ hse]
           simp [List.append_assoc]⟩
    · rw [readN, hone, ctxZeroN]
    · exact ⟨["list", "--output", "json"], optPairTok "--context" d.context,
        by rw [readArgs_eq, hs, optPairTok_some _ _ hse]⟩
    · rw [deleteN, hone, ctxZeroN]
    · exact ⟨["delete", d.name], optPairTok "--context" d.context,
        by rw [deleteArgs_eq, hs, optPairTok_some _ _ hse]⟩
  · intro s hs hse
    have hone : countTok "--context" (optPairTok "--context" d.context)
        = 1 := by
      rw [hs]
      exact countTok_optPair_one _ _ hse (hctxC s hs)
    refine ⟨?_, ?_, ?_, ?_, ?_, ?_⟩
    · rw [createC, hone, nsZeroC]
    · exact ⟨["create", d.name, "--connect=false"]
          ++ optPairTok "--namespace" d.namespace',
        optEqTok "--distro=" d.distro
          ++ optBoolTok "--isolate=" d.isolate
          ++ optBoolTok "--expose=" d.expose
          ++ optBoolTok "--expose-local=" d.expose_local
          ++ optBoolTok "--disable-ingress-sync=" d.disable_ingress_sync
          ++ optBoolTok "--create-namespace=" d.create_namespace
          ++ optEqTok "--kubernetes-version=" d.kubernetes_version,
        by rw [createArgs_eq, hs, optPairTok_some _ _ hse]
           simp [List.append_assoc]⟩
    · rw [readC, hone, nsZeroC]
    · exact ⟨["list", "--output", "json"]
          ++ optPairTok "--namespace" d.namespace', [],
        by rw [readArgs_eq, hs, optPairTok_some _ _ hse]
           simp [List.append_assoc]⟩
    · rw [deleteC, hone, nsZeroC]
    · exact ⟨["delete", d.name] ++ optPairTok "--namespace" d.namespace', [],
        by rw [deleteArgs_eq, hs, optPairTok_some _ _ hse]
           simp [List.append_assoc]⟩
  · intro habs
    have hz : countTok "--namespace" (optPairTok "--namespace" d.namespace')
        = 0 := by
      rw [optPairTok_absent _ _ habs]
      rfl
    exact ⟨by rw [createN, hz, ctxZeroN], by rw [readN, hz, ctxZeroN],
      by rw [deleteN, hz, ctxZeroN]⟩
  · intro habs
    have hz : countTok "--context" (optPairTok "--context" d.context)
        = 0 := by
      rw [optPairTok_absent _ _ habs]
      rfl
    exact ⟨by rw [createC, nsZeroC, hz], by rw [readC, nsZeroC, hz],
      by rw [deleteC, nsZeroC, hz]⟩
  · intro hdnone x
    refine (countTok_eq_zero _ _).mp ?_
    rw [countTok_createArgs,
      countTok_cons_ne _ _ _
        (Ne.symm (append_ne_lit "--distro=" x "create" 0 (by decide)
          (by decide))),
      countTok_cons_ne _ _ _
        (ne_of_dashdash d.name _ hname
          (startsDashDash_append "--distro=" x (by decide) (by decide))),
      countTok_cons_ne _ _ _
        (Ne.symm (append_ne_lit "--distro=" x "--connect=false" 2 (by decide)
          (by decide))),
      countTok_nil,
      countTok_optPair_zero _ _ _
        (Ne.symm (append_ne_lit "--distro=" x "--namespace" 2 (by decide)
          (by decide)))
        (fun t ht => ne_of_dashdash t _ (optNoDash_some hns ht)
          (startsDashDash_append "--distro=" x (by decide) (by decide))),
      countTok_optPair_zero _ _ _
        (Ne.symm (append_ne_lit "--distro=" x "--context" 2 (by decide)
          (by decide)))
        (fun t ht => ne_of_dashdash t _ (optNoDash_some hctx ht)
          (startsDashDash_append "--distro=" x (by decide) (by decide))),
      hdnone, countTok_optEq_none,
      countTok_optBool_zero "--isolate=" _ _
        (fun y => append_ne_append "--isolate=" y "--distro=" x 2 (by decide)
          (by decide) (by decide)),
      countTok_optBool_zero "--expose=" _ _
        (fun y => append_ne_append "--expose=" y "--distro=" x 2 (by decide)
          (by decide) (by decide)),
      countTok_optBool_zero "--expose-local=" _ _
        (fun y => append_ne_append "--expose-local=" y "--distro=" x 2
          (by decide) (by decide) (by decide)),
      countTok_optBool_zero "--disable-ingress-sync=" _ _
        (fun y => append_ne_append "--disable-ingress-sync=" y "--distro=" x 5
          (by decide) (by decide) (by decide)),
      countTok_optBool_zero "--create-namespace=" _ _
        (fun y => append_ne_append "--create-namespace=" y "--distro=" x 2
          (by decide) (by decide) (by decide)),
      countTok_optEq_zero "--kubernetes-version=" _ _
        (fun y => append_ne_append "--kubernetes-version=" y "--distro=" x 2
          (by decide) (by decide) (by decide))]

/-- C4 witness: on the example record, `--namespace team-a` occurs exactly
once and adjacently in the Create vector. -/
theorem C4_witness :
    countTok "--namespace" (createArgs devData) = 1
    ∧ List.IsInfix ["--namespace", "team-a"] (createArgs devData) := by
  have h := (C4_string_flags devData (by decide) (by decide) (by decide)).1
    "team-a" rfl (by decide)
  exact ⟨h.1, h.2.1⟩

/-- C10: Delete builds its vector from the record's `name` field — it is
`delete <name>` followed by the targeting flags — and when the tracked
identifier differs from the name field (and, not being a flag token or a
targeting value, cannot coincide with any other emitted token), the
identifier value appears nowhere in the vector. -/
theorem C10_delete_uses_name (d : ResourceData)
    (hdiff : d.id ≠ d.name) (hdel : d.id ≠ "delete")
    (hdash : ¬ startsDashDash d.id)
    (hnsv : optAllNe d.namespace' d.id) (hctxv : optAllNe d.context d.id) :
    deleteArgs d = ["delete", d.name] ++ targetingFlags d
    ∧ d.id ∉ deleteArgs d := by
  constructor
  · rw [deleteArgs_eq]
    simp [targetingFlags, List.append_assoc]
  · refine (countTok_eq_zero _ _).mp ?_
    rw [countTok_deleteArgs, countTok_cons_ne _ _ _ (Ne.symm hdel),
      countTok_cons_ne _ _ _ (Ne.symm hdiff), countTok_nil,
      countTok_optPair_zero _ _ _
        (Ne.symm (ne_of_dashdash d.id "--namespace" hdash (by decide)))
        (fun t ht => Ne.symm (optAllNe_some hnsv ht)),
      countTok_optPair_zero _ _ _
        (Ne.symm (ne_of_dashdash d.id "--context" hdash (by decide)))
        (fun t ht => Ne.symm (optAllNe_some hctxv ht))]

/-- C10 witness: an imported record whose identifier differs from the name
field. -/
theorem C10_witness :
    "imported" ∉ deleteArgs
      { devData with id := "imported", name := "dev1" } :=
  (C10_delete_uses_name { devData with id := "imported", name := "dev1" }
    (by decide) (by decide) (by decide) (by decide) (by decide)).2
